import Mathlib

/-!
Shallow embedding of src/systems/camera.js (the A-Frame camera system).

The scene is modelled as a state record. DOM elements live in a store
(an association list from element id to element record); the list
`children` holds the ids of the scene element children in document
order. Attribute selectors such as `[camera]` and
`[data-aframe-default-camera]` are modelled as filters over `children`.
Positions use exact rational arithmetic. Emitted events are accumulated
in an event list. The enter-vr and exit-vr listener registrations of the
scene element are modelled as lists of listener tags.
-/

set_option autoImplicit false

namespace AframeCamera

/-- A position vector, with exact rational components. -/
structure Vec3 where
  x : ℚ
  y : ℚ
  z : ℚ
deriving DecidableEq

/-- Model of a realized THREE.js camera object: `objId` identifies the
object, `el` is the back-reference to the owning entity that A-Frame
stores on every object3D. -/
structure ThreeCamera where
  objId : Nat
  el : Nat
deriving DecidableEq

/-- Model of an a-entity element. `hasCameraAttr` is whether the element
matches the selector `[camera]`; `cameraActive` is the camera component
data property `active`; `hasDefaultAttr` is whether the element matches
`[data-aframe-default-camera]`; `cameraObject` is the realized THREE
camera id returned by `getObject3D(camera)`, if any; `isPlaying` tracks
`play()` / `pause()`. -/
structure Element where
  hasCameraAttr : Bool
  cameraActive : Bool
  hasDefaultAttr : Bool
  cameraObject : Option Nat
  position : Vec3
  isPlaying : Bool
deriving DecidableEq

/-- Tags for the two listener functions the camera system registers on
the scene element (the bound methods `removeDefaultOffset` and
`addDefaultOffset`). -/
inductive Listener where
  | removeDefaultOffsetL
  | addDefaultOffsetL
deriving DecidableEq

/-- Events emitted on the scene element that the spec talks about. -/
inductive Event where
  | cameraReady (elId : Nat)
  | cameraSetActive (elId : Nat)
deriving DecidableEq

/-- The scene state: element store, scene children (document order),
the renderer camera slot `sceneEl.camera`, the system member
`activeCameraEl`, the enter-vr and exit-vr listener lists of the scene
element, the emitted events, and a fresh-id counter for
`document.createElement`. -/
structure SceneState where
  store : List (Nat × Element)
  children : List Nat
  camera : Option ThreeCamera
  activeCameraEl : Option Nat
  enterVrListeners : List Listener
  exitVrListeners : List Listener
  events : List Event
  nextId : Nat
deriving DecidableEq

/-- Line 4: `var DEFAULT_CAMERA_POSITION = x 0, y 1.8, z 4`. -/
def DEFAULT_CAMERA_POSITION : Vec3 := ⟨0, 1.8, 4⟩

/-- Look an entry up in an element store by id. -/
def lookupStore : List (Nat × Element) → Nat → Option Element
  | [], _ => none
  | p :: rest, id => if p.1 = id then some p.2 else lookupStore rest id

/-- Mutate every entry of an element store carrying the given id. -/
def updateStore : List (Nat × Element) → Nat → (Element → Element) → List (Nat × Element)
  | [], _, _ => []
  | p :: rest, id, f =>
      (if p.1 = id then (p.1, f p.2) else p) :: updateStore rest id f

/-- Look an element up in the store by id. -/
def lookupEl (s : SceneState) (id : Nat) : Option Element :=
  lookupStore s.store id

/-- Apply an in-place mutation to the element with the given id. DOM
element objects persist even after removal from the scene, so mutation
goes through the store and is independent of scene membership. -/
def updateEl (s : SceneState) (id : Nat) (f : Element → Element) : SceneState :=
  { s with store := updateStore s.store id f }

/-- Whether the element with this id matches the selector `[camera]`. -/
def matchesCamera (s : SceneState) (id : Nat) : Bool :=
  (lookupEl s id).elim false (fun e => e.hasCameraAttr)

/-- Whether the element with this id matches
`[data-aframe-default-camera]`. -/
def matchesDefault (s : SceneState) (id : Nat) : Bool :=
  (lookupEl s id).elim false (fun e => e.hasDefaultAttr)

/-- Model of `sceneEl.querySelectorAll([camera])`: all scene children
carrying the camera attribute, in document order. -/
def querySelectorAllCamera (s : SceneState) : List Nat :=
  s.children.filter (matchesCamera s)

/-- Model of `sceneEl.querySelector([data-aframe-default-camera])`: the
first scene child carrying the default-camera attribute. -/
def querySelectorDefault (s : SceneState) : Option Nat :=
  s.children.find? (matchesDefault s)

/-- Model of `el.getObject3D(camera)` combined with the `.el`
back-reference: the realized camera object of the entity, if any. -/
def getObject3DCamera (s : SceneState) (id : Nat) : Option ThreeCamera :=
  (lookupEl s id).bind (fun e => e.cameraObject.map (fun o => ⟨o, id⟩))

/-- Model of `el.setAttribute(camera, active, b)`: updates the camera
component data; afterwards the element carries the camera attribute. -/
def setCameraActiveAttr (s : SceneState) (id : Nat) (b : Bool) : SceneState :=
  updateEl s id (fun e => { e with hasCameraAttr := true, cameraActive := b })

/-- Model of `el.play()`. -/
def playEl (s : SceneState) (id : Nat) : SceneState :=
  updateEl s id (fun e => { e with isPlaying := true })

/-- Model of `el.pause()`. -/
def pauseEl (s : SceneState) (id : Nat) : SceneState :=
  updateEl s id (fun e => { e with isPlaying := false })

/-- Model of `removeEventListener(type, cb)`: removes the first
registered listener equal to `cb`. When `cb` is the JS value
`undefined` (modelled as `none`) nothing matches and the listener list
is unchanged. -/
def removeEventListenerJS (ls : List Listener) (cb : Option Listener) : List Listener :=
  match cb with
  | none => ls
  | some l => ls.erase l

/-- Lines 59-69, method `addDefaultOffset`: look the default camera up
by attribute selector; if absent return; otherwise read its position
and write back the position translated by plus
`DEFAULT_CAMERA_POSITION`, componentwise. -/
def addDefaultOffset (s : SceneState) : SceneState :=
  match querySelectorDefault s with
  | none => s
  | some defaultCamera =>
      updateEl s defaultCamera (fun e =>
        { e with position :=
            ⟨e.position.x + DEFAULT_CAMERA_POSITION.x,
             e.position.y + DEFAULT_CAMERA_POSITION.y,
             e.position.z + DEFAULT_CAMERA_POSITION.z⟩ })

/-- Lines 71-82, method `removeDefaultOffset`: same lookup, with the
position translated by minus `DEFAULT_CAMERA_POSITION`. -/
def removeDefaultOffset (s : SceneState) : SceneState :=
  match querySelectorDefault s with
  | none => s
  | some defaultCamera =>
      updateEl s defaultCamera (fun e =>
        { e with position :=
            ⟨e.position.x - DEFAULT_CAMERA_POSITION.x,
             e.position.y - DEFAULT_CAMERA_POSITION.y,
             e.position.z - DEFAULT_CAMERA_POSITION.z⟩ })

/-- Dispatch one registered listener. -/
def applyListener (s : SceneState) : Listener → SceneState
  | Listener.removeDefaultOffsetL => removeDefaultOffset s
  | Listener.addDefaultOffsetL => addDefaultOffset s

/-- Dispatch of an enter-vr event on the scene element: run the
registered enter-vr listeners in registration order. -/
def fireEnterVr (s : SceneState) : SceneState :=
  s.enterVrListeners.foldl applyListener s

/-- Dispatch of an exit-vr event on the scene element. -/
def fireExitVr (s : SceneState) : SceneState :=
  s.exitVrListeners.foldl applyListener s

/-- Lines 143-154, module-level function `removeDefaultCamera`: if
`sceneEl.camera` is null, return; if no element matches the
default-camera selector, return; otherwise remove that element from the
scene and call `removeEventListener` for enter-vr and exit-vr.

The function is invoked as a plain function call, so inside it `this`
is the global object, not the system instance; `this.removeDefaultOffset`
and `this.addDefaultOffset` evaluate to the JS value `undefined`, hence
both `removeEventListener` calls receive `undefined` (modelled as
`none`) and unregister nothing. -/
def removeDefaultCamera (s : SceneState) : SceneState :=
  match s.camera with
  | none => s
  | some _ =>
      match querySelectorDefault s with
      | none => s
      | some defaultCamera =>
          { s with
            children := s.children.erase defaultCamera,
            enterVrListeners := removeEventListenerJS s.enterVrListeners none,
            exitVrListeners := removeEventListenerJS s.exitVrListeners none }

/-- Lines 90-94, method `disableActiveCamera`: query all `[camera]`
entities and index the result at `length - 1`. On an empty query the
index expression yields the JS value `undefined` and the subsequent
`setAttribute` call throws a TypeError; the throw is modelled as
`none`. Otherwise the last camera entity in document order gets its
camera `active` property set to true. -/
def disableActiveCamera (s : SceneState) : Option SceneState :=
  let cameraEls := querySelectorAllCamera s
  match cameraEls.getLast? with
  | none => none
  | some newActiveCameraEl => some (setCameraActiveAttr s newActiveCameraEl true)

/-- Model of `wrapper.querySelector([camera])` on an a-entity element:
`Element.querySelector` matches descendants only, and the entities of
this model (in particular the default camera entity created by
`setupDefaultCamera`, which carries all its attributes on one element)
have no child elements, so the query yields null. -/
def elementQuerySelectorCamera (_wrapper : Nat) : Option Nat := none

/-- Lines 126-128 of `setActiveCamera`: disable the previous active
camera, when there was one. -/
def disablePreviousCamera (previousCamera : Option Nat) (s : SceneState) : SceneState :=
  match previousCamera with
  | some p => setCameraActiveAttr s p false
  | none => s

/-- Lines 129-133 of `setActiveCamera`: loop over the `cameraEls`
snapshot, setting camera `active` to false and pausing every entity
other than the target. -/
def disableOthers (newCameraEl : Nat) (cameraEls : List Nat) (s : SceneState) : SceneState :=
  cameraEls.foldl
    (fun st cameraEl =>
      if newCameraEl = cameraEl then st
      else pauseEl (setCameraActiveAttr st cameraEl false) cameraEl) s

/-- Model of `sceneEl.emit(name, detail)` for the events tracked here. -/
def emitEvent (ev : Event) (s : SceneState) : SceneState :=
  { s with events := s.events ++ [ev] }

/-- Lines 111-134, the body of `setActiveCamera` past the early-return
guard. `cameraEls` and `previousCamera` were read before any mutation.
Order of effects, as in the source: remove the default camera when the
new camera differs from `defaultCameraEl`; set `activeCameraEl`; play
the new camera entity; assign `sceneEl.camera`; set the camera `active`
property of the previous active camera to false; loop over the
`cameraEls` snapshot disabling and pausing every entity other than the
target; emit camera-set-active. -/
def setActiveCameraBody (s : SceneState) (newCameraEl : Nat) (newCamera : ThreeCamera)
    (cameraEls : List Nat) : SceneState :=
  let previousCamera := s.activeCameraEl
  let defaultCameraWrapper := querySelectorDefault s
  let defaultCameraEl : Option Nat := defaultCameraWrapper.bind elementQuerySelectorCamera
  let s1 := if some newCameraEl ≠ defaultCameraEl then removeDefaultCamera s else s
  let s2 := { s1 with activeCameraEl := some newCameraEl }
  let s3 := playEl s2 newCameraEl
  let s4 := { s3 with camera := some newCamera }
  let s5 := disablePreviousCamera previousCamera s4
  let s6 := disableOthers newCameraEl cameraEls s5
  emitEvent (Event.cameraSetActive newCameraEl) s6

/-- Lines 103-135, method `setActiveCamera`: snapshot the `[camera]`
query, read the realized camera object of the target; if the target has
no realized camera, or already equals `activeCameraEl`, return without
any effect; otherwise run the body. -/
def setActiveCamera (s : SceneState) (newCameraEl : Nat) : SceneState :=
  let cameraEls := querySelectorAllCamera s
  match getObject3DCamera s newCameraEl with
  | none => s
  | some newCamera =>
      if some newCameraEl = s.activeCameraEl then s
      else setActiveCameraBody s newCameraEl newCamera cameraEls

/-- Lines 35-52, the deferred `checkForCamera` body scheduled once by
`setupDefaultCamera`: if `sceneEl.camera` is already set, emit
camera-ready with the owning entity of that camera and return.
Otherwise create the default camera entity (position at
`DEFAULT_CAMERA_POSITION`, the default-camera attribute, the camera
component with active true; the wasd-controls and look-controls
attributes have no observable in this model), append it to the scene,
register the bound `removeDefaultOffset` for enter-vr and the bound
`addDefaultOffset` for exit-vr, and emit camera-ready with the new
entity. The camera component realizes the THREE camera object later,
outside this file, so `cameraObject` is not yet set at creation. -/
def checkForCamera (s : SceneState) : SceneState :=
  match s.camera with
  | some currentCamera =>
      { s with events := s.events ++ [Event.cameraReady currentCamera.el] }
  | none =>
      let id := s.nextId
      let defaultCameraEl : Element :=
        { hasCameraAttr := true
          cameraActive := true
          hasDefaultAttr := true
          cameraObject := none
          position := DEFAULT_CAMERA_POSITION
          isPlaying := true }
      { s with
        store := s.store ++ [(id, defaultCameraEl)],
        children := s.children ++ [id],
        enterVrListeners := s.enterVrListeners ++ [Listener.removeDefaultOffsetL],
        exitVrListeners := s.exitVrListeners ++ [Listener.addDefaultOffsetL],
        events := s.events ++ [Event.cameraReady id],
        nextId := id + 1 }

/-- The scene children that match `[camera]` and have the camera
component `active` property true. -/
def activeCameraEntities (s : SceneState) : List Nat :=
  s.children.filter (fun id =>
    (lookupEl s id).elim false (fun e => e.hasCameraAttr && e.cameraActive))

/-- The camera-ready events among the emitted events. -/
def cameraReadyEvents (s : SceneState) : List Event :=
  s.events.filter (fun ev =>
    match ev with
    | Event.cameraReady _ => true
    | Event.cameraSetActive _ => false)

/-- The element id that the camera-ready event of the deferred check
carries: the owning entity of the pre-existing camera when
`sceneEl.camera` is set, otherwise the id of the freshly created
default camera entity. -/
def expectedReadyPayload (s : SceneState) : Nat :=
  match s.camera with
  | some currentCamera => currentCamera.el
  | none => s.nextId

/-- The net effect of one disable-loop iteration on an element:
`setAttribute(camera, active, false)` followed by `pause()`. -/
def disabledElement (e : Element) : Element :=
  { e with hasCameraAttr := true, cameraActive := false, isPlaying := false }

/-- An author camera entity whose camera `active` property is true. -/
def elCamActive : Element :=
  { hasCameraAttr := true, cameraActive := true, hasDefaultAttr := false,
    cameraObject := some 10, position := ⟨0, 0, 0⟩, isPlaying := true }

/-- An author camera entity whose camera `active` property is false. -/
def elCamInactive : Element :=
  { hasCameraAttr := true, cameraActive := false, hasDefaultAttr := false,
    cameraObject := some 20, position := ⟨1, 2, 3⟩, isPlaying := true }

/-- An author camera entity like `elCamInactive` but with the camera
`active` property true. -/
def elCamSecond : Element :=
  { hasCameraAttr := true, cameraActive := true, hasDefaultAttr := false,
    cameraObject := some 20, position := ⟨1, 2, 3⟩, isPlaying := true }

/-- The injected default camera entity, as created by the deferred
check, with its THREE camera realized as object 10. -/
def elDefaultCam : Element :=
  { hasCameraAttr := true, cameraActive := true, hasDefaultAttr := true,
    cameraObject := some 10, position := DEFAULT_CAMERA_POSITION, isPlaying := true }

/-- A scene with two author cameras: entity 1 active (and the current
renderer camera), entity 2 inactive. -/
def sceneTwoCams : SceneState :=
  { store := [(1, elCamActive), (2, elCamInactive)], children := [1, 2],
    camera := some ⟨10, 1⟩, activeCameraEl := some 1,
    enterVrListeners := [], exitVrListeners := [], events := [], nextId := 3 }

/-- A scene with two author cameras whose camera `active` properties
are both true; entity 1 is the current active camera. -/
def sceneTwoCamsBothActive : SceneState :=
  { store := [(1, elCamActive), (2, elCamSecond)], children := [1, 2],
    camera := some ⟨10, 1⟩, activeCameraEl := some 1,
    enterVrListeners := [], exitVrListeners := [], events := [], nextId := 3 }

/-- A scene holding the injected default camera (entity 1, the current
renderer camera, VR listeners registered) and one author camera
(entity 2). -/
def sceneDefaultAndAuthor : SceneState :=
  { store := [(1, elDefaultCam), (2, elCamInactive)], children := [1, 2],
    camera := some ⟨10, 1⟩, activeCameraEl := some 1,
    enterVrListeners := [Listener.removeDefaultOffsetL],
    exitVrListeners := [Listener.addDefaultOffsetL], events := [], nextId := 3 }

/-- A scene holding the injected default camera before any renderer
camera was assigned: `sceneEl.camera` is still null. -/
def sceneDefaultNoSlot : SceneState :=
  { store := [(1, elDefaultCam), (2, elCamInactive)], children := [1, 2],
    camera := none, activeCameraEl := none,
    enterVrListeners := [Listener.removeDefaultOffsetL],
    exitVrListeners := [Listener.addDefaultOffsetL], events := [], nextId := 3 }

/-- A scene containing no camera-capable entity at all. -/
def sceneEmpty : SceneState :=
  { store := [], children := [], camera := none, activeCameraEl := none,
    enterVrListeners := [], exitVrListeners := [], events := [], nextId := 1 }

/-! Field-preservation lemmas: element mutation never touches the
scene children, the renderer camera slot, `activeCameraEl`, the
listener lists or the event list, and event emission never touches the
store. -/

@[simp] theorem updateEl_children (s : SceneState) (id : Nat) (f : Element → Element) :
    (updateEl s id f).children = s.children := rfl

@[simp] theorem updateEl_camera (s : SceneState) (id : Nat) (f : Element → Element) :
    (updateEl s id f).camera = s.camera := rfl

@[simp] theorem updateEl_activeCameraEl (s : SceneState) (id : Nat) (f : Element → Element) :
    (updateEl s id f).activeCameraEl = s.activeCameraEl := rfl

@[simp] theorem updateEl_enterVrListeners (s : SceneState) (id : Nat) (f : Element → Element) :
    (updateEl s id f).enterVrListeners = s.enterVrListeners := rfl

@[simp] theorem updateEl_exitVrListeners (s : SceneState) (id : Nat) (f : Element → Element) :
    (updateEl s id f).exitVrListeners = s.exitVrListeners := rfl

@[simp] theorem updateEl_events (s : SceneState) (id : Nat) (f : Element → Element) :
    (updateEl s id f).events = s.events := rfl

@[simp] theorem emitEvent_store (s : SceneState) (ev : Event) :
    (emitEvent ev s).store = s.store := rfl

@[simp] theorem emitEvent_children (s : SceneState) (ev : Event) :
    (emitEvent ev s).children = s.children := rfl

@[simp] theorem emitEvent_camera (s : SceneState) (ev : Event) :
    (emitEvent ev s).camera = s.camera := rfl

@[simp] theorem emitEvent_events (s : SceneState) (ev : Event) :
    (emitEvent ev s).events = s.events ++ [ev] := rfl

/-- Looking up after an in-place mutation: the mutated element when the
ids agree, the untouched lookup otherwise. -/
theorem lookupStore_updateStore (l : List (Nat × Element)) (id : Nat)
    (f : Element → Element) (j : Nat) :
    lookupStore (updateStore l id f) j =
      if j = id then (lookupStore l j).map f else lookupStore l j := by
  induction l with
  | nil => simp [lookupStore, updateStore]
  | cons p rest ih =>
      by_cases hpi : p.1 = id
      · by_cases hpj : p.1 = j
        · have hji : j = id := hpj ▸ hpi
          simp [lookupStore, updateStore, hpi, hpj, hji]
        · have hij : ¬ id = j := fun h => hpj (hpi.trans h)
          have hji : ¬ j = id := fun h => hij h.symm
          simp [lookupStore, updateStore, hpi, hpj, hij, hji, ih]
      · by_cases hpj : p.1 = j
        · have hji : ¬ j = id := fun h => hpi (hpj.trans h)
          simp [lookupStore, updateStore, hpi, hpj, hji]
        · simp [lookupStore, updateStore, hpi, hpj, ih]

theorem lookupEl_updateEl (s : SceneState) (id : Nat) (f : Element → Element) (j : Nat) :
    lookupEl (updateEl s id f) j =
      if j = id then (lookupEl s j).map f else lookupEl s j := by
  unfold lookupEl updateEl
  exact lookupStore_updateStore s.store id f j

theorem updateStore_updateStore (l : List (Nat × Element)) (id : Nat)
    (f g : Element → Element) :
    updateStore (updateStore l id f) id g = updateStore l id (fun e => g (f e)) := by
  induction l with
  | nil => rfl
  | cons p rest ih =>
      by_cases hp : p.1 = id <;> simp [updateStore, hp, ih]

theorem updateStore_id_of (l : List (Nat × Element)) (id : Nat)
    (f : Element → Element) (h : ∀ e, f e = e) : updateStore l id f = l := by
  induction l with
  | nil => rfl
  | cons p rest ih =>
      cases p with
      | mk k v => by_cases hp : k = id <;> simp [updateStore, hp, ih, h v]

theorem find?_congr_bool (l : List Nat) (p q : Nat → Bool) (h : ∀ a, p a = q a) :
    l.find? p = l.find? q := by
  induction l with
  | nil => rfl
  | cons a rest ih => cases hq : q a <;> simp [List.find?, h a, hq, ih]

/-- A list with no duplicates whose filter keeps exactly one of its
members filters to the singleton of that member. -/
theorem filter_eq_singleton_of_forall (l : List Nat) (t : Nat) (p : Nat → Bool)
    (hnd : l.Nodup) (hmem : t ∈ l) (h : ∀ x ∈ l, p x = true ↔ x = t) :
    l.filter p = [t] := by
  induction l with
  | nil => cases hmem
  | cons a rest ih =>
      by_cases hat : a = t
      · have hpa : p a = true := (h a (List.mem_cons_self a rest)).mpr hat
        have hrest : List.filter p rest = [] := by
          rw [List.filter_eq_nil_iff]
          intro x hx hpx
          have hxt : x = t := (h x (List.mem_cons_of_mem _ hx)).mp hpx
          apply (List.nodup_cons.mp hnd).1
          rw [hat, ← hxt]
          exact hx
        have hpt : p t = true := hat ▸ hpa
        simp [List.filter_cons, hpa, hpt, hrest, hat]
      · have hm : t ∈ rest := by
          rcases List.mem_cons.mp hmem with e | hm
          · exact absurd e.symm hat
          · exact hm
        have hpa : p a = false := by
          cases hpx : p a
          · rfl
          · exact absurd ((h a (List.mem_cons_self a rest)).mp hpx) hat
        rw [List.filter_cons_of_neg (by simp [hpa])]
        exact ih (List.nodup_cons.mp hnd).2 hm
          (fun x hx => h x (List.mem_cons_of_mem _ hx))

/-! Facts about removeDefaultCamera: it never touches the store, the
renderer camera slot, the active-camera member, the listener lists or
the events; its only possible effect is erasing the default camera
entity from the scene children. -/

theorem removeDefaultCamera_store (s : SceneState) :
    (removeDefaultCamera s).store = s.store := by
  unfold removeDefaultCamera
  cases s.camera
  · rfl
  · cases querySelectorDefault s <;> rfl

theorem removeDefaultCamera_camera (s : SceneState) :
    (removeDefaultCamera s).camera = s.camera := by
  unfold removeDefaultCamera
  split
  · rfl
  · split <;> rfl

theorem removeDefaultCamera_activeCameraEl (s : SceneState) :
    (removeDefaultCamera s).activeCameraEl = s.activeCameraEl := by
  unfold removeDefaultCamera
  cases s.camera
  · rfl
  · cases querySelectorDefault s <;> rfl

theorem removeDefaultCamera_enterVrListeners (s : SceneState) :
    (removeDefaultCamera s).enterVrListeners = s.enterVrListeners := by
  unfold removeDefaultCamera
  cases s.camera
  · rfl
  · cases querySelectorDefault s <;> rfl

theorem removeDefaultCamera_exitVrListeners (s : SceneState) :
    (removeDefaultCamera s).exitVrListeners = s.exitVrListeners := by
  unfold removeDefaultCamera
  cases s.camera
  · rfl
  · cases querySelectorDefault s <;> rfl

theorem removeDefaultCamera_events (s : SceneState) :
    (removeDefaultCamera s).events = s.events := by
  unfold removeDefaultCamera
  cases s.camera
  · rfl
  · cases querySelectorDefault s <;> rfl

theorem removeDefaultCamera_children_sublist (s : SceneState) :
    (removeDefaultCamera s).children.Sublist s.children := by
  unfold removeDefaultCamera
  cases s.camera
  · exact List.Sublist.refl _
  · cases querySelectorDefault s
    · exact List.Sublist.refl _
    · exact List.erase_sublist _ _

theorem lookupEl_removeDefaultCamera (s : SceneState) (j : Nat) :
    lookupEl (removeDefaultCamera s) j = lookupEl s j := by
  unfold lookupEl
  rw [removeDefaultCamera_store]

/-- A non-default entity in the scene survives removeDefaultCamera. -/
theorem mem_children_removeDefaultCamera (s : SceneState) (t : Nat)
    (h : t ∈ s.children) (hdef : matchesDefault s t = false) :
    t ∈ (removeDefaultCamera s).children := by
  unfold removeDefaultCamera
  cases s.camera
  · exact h
  · cases hq : querySelectorDefault s
    · exact h
    · rename_i d
      have hd : matchesDefault s d = true := List.find?_some hq
      have htd : t ≠ d := fun e => by rw [e, hd] at hdef; cases hdef
      exact (List.mem_erase_of_ne htd).mpr h

/-! Facts about the two disable steps of setActiveCamera. -/

theorem disablePreviousCamera_children (prev : Option Nat) (s : SceneState) :
    (disablePreviousCamera prev s).children = s.children := by
  cases prev <;> rfl

theorem disablePreviousCamera_camera (prev : Option Nat) (s : SceneState) :
    (disablePreviousCamera prev s).camera = s.camera := by
  cases prev <;> rfl

theorem disablePreviousCamera_activeCameraEl (prev : Option Nat) (s : SceneState) :
    (disablePreviousCamera prev s).activeCameraEl = s.activeCameraEl := by
  cases prev <;> rfl

theorem disablePreviousCamera_events (prev : Option Nat) (s : SceneState) :
    (disablePreviousCamera prev s).events = s.events := by
  cases prev <;> rfl

theorem disablePreviousCamera_enterVrListeners (prev : Option Nat) (s : SceneState) :
    (disablePreviousCamera prev s).enterVrListeners = s.enterVrListeners := by
  cases prev <;> rfl

theorem disablePreviousCamera_exitVrListeners (prev : Option Nat) (s : SceneState) :
    (disablePreviousCamera prev s).exitVrListeners = s.exitVrListeners := by
  cases prev <;> rfl

theorem lookupEl_disablePreviousCamera_ne (prev : Option Nat) (s : SceneState) (j : Nat)
    (h : prev ≠ some j) :
    lookupEl (disablePreviousCamera prev s) j = lookupEl s j := by
  cases prev with
  | none => rfl
  | some p =>
      have hpj : ¬ j = p := fun e => h (by rw [e])
      unfold disablePreviousCamera setCameraActiveAttr
      rw [lookupEl_updateEl, if_neg hpj]

theorem lookupEl_disablePreviousCamera_self (s : SceneState) (p : Nat) :
    lookupEl (disablePreviousCamera (some p) s) p =
      (lookupEl s p).map
        (fun e => { e with hasCameraAttr := true, cameraActive := false }) := by
  unfold disablePreviousCamera setCameraActiveAttr
  rw [lookupEl_updateEl, if_pos rfl]

theorem disableOthers_nil (t : Nat) (s : SceneState) : disableOthers t [] s = s := rfl

theorem disableOthers_cons (t i : Nat) (rest : List Nat) (s : SceneState) :
    disableOthers t (i :: rest) s =
      disableOthers t rest
        (if t = i then s else pauseEl (setCameraActiveAttr s i false) i) := rfl

theorem disableOthers_children (t : Nat) (ids : List Nat) (s : SceneState) :
    (disableOthers t ids s).children = s.children := by
  induction ids generalizing s with
  | nil => rfl
  | cons i rest ih =>
      rw [disableOthers_cons, ih]
      by_cases h : t = i <;> simp [h, pauseEl, setCameraActiveAttr]

theorem disableOthers_camera (t : Nat) (ids : List Nat) (s : SceneState) :
    (disableOthers t ids s).camera = s.camera := by
  induction ids generalizing s with
  | nil => rfl
  | cons i rest ih =>
      rw [disableOthers_cons, ih]
      by_cases h : t = i <;> simp [h, pauseEl, setCameraActiveAttr]

theorem disableOthers_activeCameraEl (t : Nat) (ids : List Nat) (s : SceneState) :
    (disableOthers t ids s).activeCameraEl = s.activeCameraEl := by
  induction ids generalizing s with
  | nil => rfl
  | cons i rest ih =>
      rw [disableOthers_cons, ih]
      by_cases h : t = i <;> simp [h, pauseEl, setCameraActiveAttr]

theorem disableOthers_events (t : Nat) (ids : List Nat) (s : SceneState) :
    (disableOthers t ids s).events = s.events := by
  induction ids generalizing s with
  | nil => rfl
  | cons i rest ih =>
      rw [disableOthers_cons, ih]
      by_cases h : t = i <;> simp [h, pauseEl, setCameraActiveAttr]

theorem disableOthers_enterVrListeners (t : Nat) (ids : List Nat) (s : SceneState) :
    (disableOthers t ids s).enterVrListeners = s.enterVrListeners := by
  induction ids generalizing s with
  | nil => rfl
  | cons i rest ih =>
      rw [disableOthers_cons, ih]
      by_cases h : t = i <;> simp [h, pauseEl, setCameraActiveAttr]

theorem disableOthers_exitVrListeners (t : Nat) (ids : List Nat) (s : SceneState) :
    (disableOthers t ids s).exitVrListeners = s.exitVrListeners := by
  induction ids generalizing s with
  | nil => rfl
  | cons i rest ih =>
      rw [disableOthers_cons, ih]
      by_cases h : t = i <;> simp [h, pauseEl, setCameraActiveAttr]

theorem lookupEl_disableOthers_not_mem (t : Nat) (ids : List Nat) (s : SceneState)
    (j : Nat) (h : j ∉ ids) :
    lookupEl (disableOthers t ids s) j = lookupEl s j := by
  induction ids generalizing s with
  | nil => rfl
  | cons i rest ih =>
      rw [disableOthers_cons,
        ih _ (fun hm => h (List.mem_cons_of_mem _ hm))]
      have hji : ¬ j = i := fun e => h (e ▸ List.mem_cons_self i rest)
      by_cases ht : t = i
      · simp [ht]
      · simp [ht, pauseEl, setCameraActiveAttr, lookupEl_updateEl, hji]

theorem lookupEl_disableOthers_target (t : Nat) (ids : List Nat) (s : SceneState) :
    lookupEl (disableOthers t ids s) t = lookupEl s t := by
  induction ids generalizing s with
  | nil => rfl
  | cons i rest ih =>
      rw [disableOthers_cons, ih]
      by_cases ht : t = i
      · simp [ht]
      · simp [ht, pauseEl, setCameraActiveAttr, lookupEl_updateEl]

theorem lookupEl_disableOthers_mem (t : Nat) (ids : List Nat) (s : SceneState)
    (j : Nat) (hnd : ids.Nodup) (hj : j ∈ ids) (hne : j ≠ t) :
    lookupEl (disableOthers t ids s) j = (lookupEl s j).map disabledElement := by
  induction ids generalizing s with
  | nil => cases hj
  | cons i rest ih =>
      rw [disableOthers_cons]
      by_cases hji : j = i
      · have hjr : j ∉ rest := hji ▸ (List.nodup_cons.mp hnd).1
        have ht : ¬ t = i := fun e => hne (hji.trans e.symm)
        rw [lookupEl_disableOthers_not_mem _ _ _ _ hjr]
        simp only [ht, if_false, pauseEl, setCameraActiveAttr, lookupEl_updateEl,
          hji, if_pos]
        cases lookupEl s i <;> rfl
      · have hjr : j ∈ rest := by
          rcases List.mem_cons.mp hj with e | hm
          · exact absurd e hji
          · exact hm
        have hstep :
            lookupEl (if t = i then s else pauseEl (setCameraActiveAttr s i false) i) j
              = lookupEl s j := by
          by_cases ht : t = i
          · simp [ht]
          · simp [ht, pauseEl, setCameraActiveAttr, lookupEl_updateEl, hji]
        rw [ih _ (List.nodup_cons.mp hnd).2 hjr, hstep]

/-! Unfolding lemmas for setActiveCamera: the two no-op paths and the
successful activation path. -/

theorem bind_elementQuerySelectorCamera (q : Option Nat) :
    q.bind elementQuerySelectorCamera = none := by
  cases q <;> rfl

theorem lookupEl_emitEvent (ev : Event) (s : SceneState) (j : Nat) :
    lookupEl (emitEvent ev s) j = lookupEl s j := rfl

theorem getObject3DCamera_eq (s : SceneState) (t : Nat) (e : Element) (o : Nat)
    (he : lookupEl s t = some e) (ho : e.cameraObject = some o) :
    getObject3DCamera s t = some ⟨o, t⟩ := by
  unfold getObject3DCamera
  rw [he]
  simp [ho]

theorem setActiveCamera_of_none (s : SceneState) (t : Nat)
    (h : getObject3DCamera s t = none) : setActiveCamera s t = s := by
  unfold setActiveCamera
  rw [h]

theorem setActiveCamera_of_already_active (s : SceneState) (t : Nat)
    (h : some t = s.activeCameraEl) (cam : ThreeCamera)
    (hc : getObject3DCamera s t = some cam) : setActiveCamera s t = s := by
  unfold setActiveCamera
  rw [hc]
  simp [h]

theorem setActiveCamera_of_valid (s : SceneState) (t : Nat) (cam : ThreeCamera)
    (hc : getObject3DCamera s t = some cam)
    (hne : ¬ some t = s.activeCameraEl) :
    setActiveCamera s t =
      emitEvent (Event.cameraSetActive t)
        (disableOthers t (querySelectorAllCamera s)
          (disablePreviousCamera s.activeCameraEl
            { playEl { removeDefaultCamera s with activeCameraEl := some t } t with
                camera := some cam })) := by
  unfold setActiveCamera setActiveCameraBody
  rw [hc]
  simp only [bind_elementQuerySelectorCamera, if_neg hne, ne_eq, Option.some_ne_none,
    not_false_eq_true, if_true]

@[simp] theorem emitEvent_activeCameraEl (s : SceneState) (ev : Event) :
    (emitEvent ev s).activeCameraEl = s.activeCameraEl := rfl

@[simp] theorem emitEvent_enterVrListeners (s : SceneState) (ev : Event) :
    (emitEvent ev s).enterVrListeners = s.enterVrListeners := rfl

@[simp] theorem emitEvent_exitVrListeners (s : SceneState) (ev : Event) :
    (emitEvent ev s).exitVrListeners = s.exitVrListeners := rfl

theorem querySelectorDefault_updateEl (s : SceneState) (id : Nat)
    (f : Element → Element) (h : ∀ e, (f e).hasDefaultAttr = e.hasDefaultAttr) :
    querySelectorDefault (updateEl s id f) = querySelectorDefault s := by
  unfold querySelectorDefault
  rw [updateEl_children]
  apply find?_congr_bool
  intro a
  unfold matchesDefault
  rw [lookupEl_updateEl]
  by_cases ha : a = id
  · rw [if_pos ha]
    cases lookupEl s a <;> simp [h]
  · rw [if_neg ha]

theorem cameraReadyEvents_eq_of_events (s s' : SceneState)
    (h : s'.events = s.events) : cameraReadyEvents s' = cameraReadyEvents s := by
  unfold cameraReadyEvents
  rw [h]

/-- C4: if no camera-capable entity exists in the scene,
disableActiveCamera indexes an empty query result; the unguarded access
on the empty result is reached and the call throws (modelled as `none`)
rather than performing a guarded no-op. -/
theorem C4_disableActiveCamera_empty_throws (s : SceneState)
    (h : querySelectorAllCamera s = []) : disableActiveCamera s = none := by
  unfold disableActiveCamera
  simp only [h, List.getLast?_nil]

/-- Witness for C4 at the empty scene. -/
theorem C4_witness : disableActiveCamera sceneEmpty = none :=
  C4_disableActiveCamera_empty_throws sceneEmpty rfl

/-- C5: a setActiveCamera call whose target has no realized camera
object, or whose target already equals activeCameraEl, is a complete
no-op: the returned state (including activeCameraEl, the renderer
camera slot, every element attribute and the emitted-event list) is the
input state unchanged, so no camera-set-active event is emitted. -/
theorem C5_setActiveCamera_noop (s : SceneState) (t : Nat)
    (h : getObject3DCamera s t = none ∨ s.activeCameraEl = some t) :
    setActiveCamera s t = s := by
  rcases h with h | h
  · exact setActiveCamera_of_none s t h
  · cases hc : getObject3DCamera s t with
    | none => exact setActiveCamera_of_none s t hc
    | some cam => exact setActiveCamera_of_already_active s t h.symm cam hc

/-- Witness for C5: re-activating the already-active entity 1 of the
two-camera scene changes nothing. -/
theorem C5_witness : setActiveCamera sceneTwoCams 1 = sceneTwoCams :=
  C5_setActiveCamera_noop sceneTwoCams 1 (Or.inr rfl)

/-- C6: on a scene with at least one camera-capable entity,
disableActiveCamera succeeds and sets the camera `active` property of
the last camera-capable entity in document order to true; it leaves
`activeCameraEl` untouched and no other entity's camera attribute is
written. -/
theorem C6_disableActiveCamera_picks_last (s : SceneState) (last : Nat)
    (h : (querySelectorAllCamera s).getLast? = some last) :
    disableActiveCamera s = some (setCameraActiveAttr s last true) ∧
    (setCameraActiveAttr s last true).activeCameraEl = s.activeCameraEl ∧
    lookupEl (setCameraActiveAttr s last true) last =
      (lookupEl s last).map
        (fun e => { e with hasCameraAttr := true, cameraActive := true }) ∧
    (∀ j, j ≠ last → lookupEl (setCameraActiveAttr s last true) j = lookupEl s j) := by
  refine ⟨?_, rfl, ?_, ?_⟩
  · unfold disableActiveCamera
    simp only [h]
  · unfold setCameraActiveAttr
    rw [lookupEl_updateEl, if_pos rfl]
  · intro j hj
    unfold setCameraActiveAttr
    rw [lookupEl_updateEl, if_neg hj]

/-- Witness for C6 on the two-camera scene: the last camera entity in
document order, entity 2, is the chosen replacement. -/
theorem C6_witness :
    disableActiveCamera sceneTwoCams = some (setCameraActiveAttr sceneTwoCams 2 true) :=
  (C6_disableActiveCamera_picks_last sceneTwoCams 2 rfl).1

/-- C7: while the default camera exists, removeDefaultOffset followed
by addDefaultOffset restores the scene state exactly; in particular the
default camera's position returns to the exact original value,
componentwise, in exact arithmetic. -/
theorem C7_offset_roundtrip (s : SceneState) (d : Nat)
    (h : querySelectorDefault s = some d) :
    addDefaultOffset (removeDefaultOffset s) = s := by
  unfold removeDefaultOffset
  simp only [h]
  have hq : querySelectorDefault
      (updateEl s d (fun e =>
        { e with position :=
            ⟨e.position.x - DEFAULT_CAMERA_POSITION.x,
             e.position.y - DEFAULT_CAMERA_POSITION.y,
             e.position.z - DEFAULT_CAMERA_POSITION.z⟩ })) = querySelectorDefault s :=
    querySelectorDefault_updateEl s d _ (fun e => rfl)
  unfold addDefaultOffset
  rw [hq, h]
  simp only [updateEl]
  rw [updateStore_updateStore]
  rw [updateStore_id_of]
  · intro e
    cases e with
    | mk a b c o p g =>
        cases p with
        | mk px py pz => simp

/-- Witness for C7 starting from the injected default camera scene. -/
theorem C7_witness :
    addDefaultOffset (removeDefaultOffset sceneDefaultAndAuthor) = sceneDefaultAndAuthor :=
  C7_offset_roundtrip sceneDefaultAndAuthor 1 rfl

/-- C10: whenever the renderer camera slot is null, removeDefaultCamera
is a complete no-op, and therefore a setActiveCamera call in that state
leaves the scene children (in particular the default camera entity) and
both VR listener registrations unchanged. -/
theorem C10_removeDefaultCamera_noop_without_slot (s : SceneState) (t : Nat)
    (h : s.camera = none) :
    removeDefaultCamera s = s ∧
    (setActiveCamera s t).children = s.children ∧
    (setActiveCamera s t).enterVrListeners = s.enterVrListeners ∧
    (setActiveCamera s t).exitVrListeners = s.exitVrListeners := by
  have hrdc : removeDefaultCamera s = s := by
    unfold removeDefaultCamera
    rw [h]
  refine ⟨hrdc, ?_⟩
  cases hc : getObject3DCamera s t with
  | none => rw [setActiveCamera_of_none s t hc]; exact ⟨rfl, rfl, rfl⟩
  | some cam =>
      by_cases hact : some t = s.activeCameraEl
      · rw [setActiveCamera_of_already_active s t hact cam hc]; exact ⟨rfl, rfl, rfl⟩
      · rw [setActiveCamera_of_valid s t cam hc hact, hrdc]
        refine ⟨?_, ?_, ?_⟩
        · rw [emitEvent_children, disableOthers_children, disablePreviousCamera_children]
          rfl
        · rw [emitEvent_enterVrListeners, disableOthers_enterVrListeners,
            disablePreviousCamera_enterVrListeners]
          rfl
        · rw [emitEvent_exitVrListeners, disableOthers_exitVrListeners,
            disablePreviousCamera_exitVrListeners]
          rfl

/-- Witness for C10: with the renderer slot still null, activation of
entity 2 leaves the default camera entity 1 in the scene. -/
theorem C10_witness :
    removeDefaultCamera sceneDefaultNoSlot = sceneDefaultNoSlot ∧
    (setActiveCamera sceneDefaultNoSlot 2).children = sceneDefaultNoSlot.children :=
  ⟨(C10_removeDefaultCamera_noop_without_slot sceneDefaultNoSlot 2 rfl).1,
   (C10_removeDefaultCamera_noop_without_slot sceneDefaultNoSlot 2 rfl).2.1⟩

theorem setActiveCamera_valid_events (s : SceneState) (t : Nat) (cam : ThreeCamera)
    (hc : getObject3DCamera s t = some cam)
    (hne : ¬ some t = s.activeCameraEl) :
    (setActiveCamera s t).events = s.events ++ [Event.cameraSetActive t] := by
  rw [setActiveCamera_of_valid s t cam hc hne, emitEvent_events, disableOthers_events,
    disablePreviousCamera_events]
  exact congrArg (fun l => l ++ [Event.cameraSetActive t]) (removeDefaultCamera_events s)

/-- C8: the deferred check emits exactly one camera-ready event, whose
payload is the owning entity of the pre-existing camera when the
renderer slot is set and the freshly created default camera entity
otherwise; no other operation of the system ever emits camera-ready, so
the event fires exactly once per manager lifetime (init schedules the
deferred check exactly once). -/
theorem C8_camera_ready_once (s : SceneState) (t : Nat) :
    cameraReadyEvents (checkForCamera s) =
      cameraReadyEvents s ++ [Event.cameraReady (expectedReadyPayload s)] ∧
    cameraReadyEvents (setActiveCamera s t) = cameraReadyEvents s ∧
    cameraReadyEvents ((disableActiveCamera s).getD s) = cameraReadyEvents s ∧
    cameraReadyEvents (addDefaultOffset s) = cameraReadyEvents s ∧
    cameraReadyEvents (removeDefaultOffset s) = cameraReadyEvents s ∧
    cameraReadyEvents (removeDefaultCamera s) = cameraReadyEvents s := by
  refine ⟨?_, ?_, ?_, ?_, ?_, ?_⟩
  · unfold checkForCamera expectedReadyPayload cameraReadyEvents
    cases s.camera <;> simp [List.filter_append]
  · cases hc : getObject3DCamera s t with
    | none => rw [setActiveCamera_of_none s t hc]
    | some cam =>
        by_cases hact : some t = s.activeCameraEl
        · rw [setActiveCamera_of_already_active s t hact cam hc]
        · unfold cameraReadyEvents
          rw [setActiveCamera_valid_events s t cam hc hact]
          simp [List.filter_append]
  · unfold disableActiveCamera
    cases hq : (querySelectorAllCamera s).getLast? with
    | none => simp only [hq, Option.getD_none]
    | some l =>
        simp only [hq, Option.getD_some]
        exact cameraReadyEvents_eq_of_events _ _ rfl
  · unfold addDefaultOffset
    cases hq : querySelectorDefault s with
    | none => rfl
    | some d => exact cameraReadyEvents_eq_of_events _ _ rfl
  · unfold removeDefaultOffset
    cases hq : querySelectorDefault s with
    | none => rfl
    | some d => exact cameraReadyEvents_eq_of_events _ _ rfl
  · exact cameraReadyEvents_eq_of_events _ _ (removeDefaultCamera_events s)

/-- C9: setActiveCamera never writes the target's own camera attribute;
on every path (both no-op guards and the successful activation, where
the disable loop skips the target and the previous-camera write cannot
hit it) the target's camera attribute pair, presence and `active`, is
exactly what it was before the call. -/
theorem C9_target_attribute_untouched (s : SceneState) (t : Nat) :
    (lookupEl (setActiveCamera s t) t).map (fun e => (e.hasCameraAttr, e.cameraActive)) =
      (lookupEl s t).map (fun e => (e.hasCameraAttr, e.cameraActive)) := by
  cases hc : getObject3DCamera s t with
  | none => rw [setActiveCamera_of_none s t hc]
  | some cam =>
      by_cases hact : some t = s.activeCameraEl
      · rw [setActiveCamera_of_already_active s t hact cam hc]
      · rw [setActiveCamera_of_valid s t cam hc hact]
        rw [lookupEl_emitEvent, lookupEl_disableOthers_target,
          lookupEl_disablePreviousCamera_ne _ _ _ (fun hh => hact hh.symm)]
        have h4 : lookupEl
            ({ playEl { removeDefaultCamera s with activeCameraEl := some t } t with
                camera := some cam } : SceneState) t =
            (lookupEl s t).map (fun e => { e with isPlaying := true }) := by
          show lookupEl (playEl { removeDefaultCamera s with activeCameraEl := some t } t) t = _
          unfold playEl
          rw [lookupEl_updateEl, if_pos rfl]
          show (lookupEl (removeDefaultCamera s) t).map _ = _
          rw [lookupEl_removeDefaultCamera]
        rw [h4]
        cases lookupEl s t <;> rfl

/-- C2 (code evaluation): removeDefaultCamera never unregisters the VR
listeners: it is invoked as a plain function call, so its
removeEventListener calls receive the undefined value instead of the
bound handlers and match nothing. At the failing input, activating the
author camera removes the default camera entity from the scene while
both the enter-vr and exit-vr listeners stay registered, contradicting
the claim that they are unregistered. -/
theorem C2_code_behavior :
    (∀ s : SceneState,
        (removeDefaultCamera s).enterVrListeners = s.enterVrListeners ∧
        (removeDefaultCamera s).exitVrListeners = s.exitVrListeners) ∧
    1 ∉ (setActiveCamera sceneDefaultAndAuthor 2).children ∧
    (setActiveCamera sceneDefaultAndAuthor 2).enterVrListeners =
      [Listener.removeDefaultOffsetL] ∧
    (setActiveCamera sceneDefaultAndAuthor 2).exitVrListeners =
      [Listener.addDefaultOffsetL] := by
  refine ⟨fun s => ⟨removeDefaultCamera_enterVrListeners s,
    removeDefaultCamera_exitVrListeners s⟩, ?_, ?_, ?_⟩ <;> decide

/-- C3 (counterexample): on the scene holding the injected default
camera at the spawn position, dispatching enter-vr runs the registered
handler removeDefaultOffset, which moves the default camera to the
origin (translation by minus the spawn vector); the position mandated
by the claim, translation by plus the spawn vector, is a different
point. -/
theorem C3_counterexample :
    (lookupEl (fireEnterVr sceneDefaultAndAuthor) 1).map (fun e => e.position) =
      some ⟨0, 0, 0⟩ ∧
    (Vec3.mk 0 0 0) ≠
      ⟨DEFAULT_CAMERA_POSITION.x + DEFAULT_CAMERA_POSITION.x,
       DEFAULT_CAMERA_POSITION.y + DEFAULT_CAMERA_POSITION.y,
       DEFAULT_CAMERA_POSITION.z + DEFAULT_CAMERA_POSITION.z⟩ := by
  constructor
  · simp [fireEnterVr, sceneDefaultAndAuthor, applyListener, removeDefaultOffset,
      querySelectorDefault, matchesDefault, lookupEl, lookupStore, updateEl, updateStore,
      elDefaultCam, elCamInactive, DEFAULT_CAMERA_POSITION, List.find?]
  · intro h
    have hy := congrArg Vec3.y h
    simp [DEFAULT_CAMERA_POSITION] at hy
    norm_num at hy

/-- C3 (amended): the deferred check registers removeDefaultOffset for
enter-vr and addDefaultOffset for exit-vr, so the enter-vr transition
translates the default camera's position by minus (0, 1.8, 4)
componentwise and the exit-vr transition by plus (0, 1.8, 4); the
offset is applied only to the default camera entity, and both handlers
are no-ops once the default camera is gone. -/
theorem C3_amended_vr_offsets :
    (∀ s : SceneState, s.camera = none →
        (checkForCamera s).enterVrListeners =
          s.enterVrListeners ++ [Listener.removeDefaultOffsetL] ∧
        (checkForCamera s).exitVrListeners =
          s.exitVrListeners ++ [Listener.addDefaultOffsetL]) ∧
    (∀ s : SceneState, s.enterVrListeners = [Listener.removeDefaultOffsetL] →
        fireEnterVr s = removeDefaultOffset s) ∧
    (∀ s : SceneState, s.exitVrListeners = [Listener.addDefaultOffsetL] →
        fireExitVr s = addDefaultOffset s) ∧
    (∀ (s : SceneState) (d : Nat) (e : Element),
        querySelectorDefault s = some d → lookupEl s d = some e →
        (lookupEl (removeDefaultOffset s) d).map (fun x => x.position) =
          some ⟨e.position.x - DEFAULT_CAMERA_POSITION.x,
                e.position.y - DEFAULT_CAMERA_POSITION.y,
                e.position.z - DEFAULT_CAMERA_POSITION.z⟩ ∧
        (lookupEl (addDefaultOffset s) d).map (fun x => x.position) =
          some ⟨e.position.x + DEFAULT_CAMERA_POSITION.x,
                e.position.y + DEFAULT_CAMERA_POSITION.y,
                e.position.z + DEFAULT_CAMERA_POSITION.z⟩ ∧
        (∀ j, j ≠ d →
            lookupEl (removeDefaultOffset s) j = lookupEl s j ∧
            lookupEl (addDefaultOffset s) j = lookupEl s j)) ∧
    (∀ s : SceneState, querySelectorDefault s = none →
        removeDefaultOffset s = s ∧ addDefaultOffset s = s) := by
  refine ⟨?_, ?_, ?_, ?_, ?_⟩
  · intro s h
    unfold checkForCamera
    rw [h]
    exact ⟨rfl, rfl⟩
  · intro s h
    unfold fireEnterVr
    rw [h]
    rfl
  · intro s h
    unfold fireExitVr
    rw [h]
    rfl
  · intro s d e hq he
    refine ⟨?_, ?_, ?_⟩
    · unfold removeDefaultOffset
      simp only [hq]
      rw [lookupEl_updateEl, if_pos rfl, he]
      rfl
    · unfold addDefaultOffset
      simp only [hq]
      rw [lookupEl_updateEl, if_pos rfl, he]
      rfl
    · intro j hj
      constructor
      · unfold removeDefaultOffset
        simp only [hq]
        rw [lookupEl_updateEl, if_neg hj]
      · unfold addDefaultOffset
        simp only [hq]
        rw [lookupEl_updateEl, if_neg hj]
  · intro s h
    constructor
    · unfold removeDefaultOffset
      rw [h]
    · unfold addDefaultOffset
      rw [h]

/-- Witness for C3 (amended) on the injected default camera scene:
the enter-vr dispatch is removeDefaultOffset, and removeDefaultOffset
subtracts the spawn vector from the default camera's position. -/
theorem C3_witness :
    (lookupEl (removeDefaultOffset sceneDefaultAndAuthor) 1).map (fun x => x.position) =
      some ⟨elDefaultCam.position.x - DEFAULT_CAMERA_POSITION.x,
            elDefaultCam.position.y - DEFAULT_CAMERA_POSITION.y,
            elDefaultCam.position.z - DEFAULT_CAMERA_POSITION.z⟩ ∧
    fireEnterVr sceneDefaultAndAuthor = removeDefaultOffset sceneDefaultAndAuthor :=
  ⟨(C3_amended_vr_offsets.2.2.2.1 sceneDefaultAndAuthor 1 elDefaultCam rfl rfl).1,
   C3_amended_vr_offsets.2.1 sceneDefaultAndAuthor rfl⟩

/-- C1 (counterexample): entity 2 of the two-camera scene has a
realized camera object and is not the active camera, yet after
setActiveCamera no camera-capable entity has camera-active true at all
(the code sets the previous and all other cameras to false but never
writes true on the target, whose attribute was false), contradicting
the claim that exactly one, namely the target, is true. -/
theorem C1_counterexample :
    getObject3DCamera sceneTwoCams 2 = some ⟨20, 2⟩ ∧
    sceneTwoCams.activeCameraEl = some 1 ∧
    activeCameraEntities (setActiveCamera sceneTwoCams 2) = [] := by
  refine ⟨rfl, rfl, ?_⟩
  decide

/-- C1 (amended): for a setActiveCamera call whose target is a scene
entity carrying the camera attribute with camera-active already true, a
realized camera object, no default-camera attribute, and which is not
the current active camera, after the call the target is the one and
only camera-capable scene entity whose camera-active attribute is true
and the renderer camera slot holds the target's realized camera
object. -/
theorem C1_amended_single_activation (s : SceneState) (t : Nat) (e : Element) (o : Nat)
    (hnd : s.children.Nodup) (hmem : t ∈ s.children)
    (he : lookupEl s t = some e)
    (hattr : e.hasCameraAttr = true) (hact : e.cameraActive = true)
    (hdef : e.hasDefaultAttr = false) (ho : e.cameraObject = some o)
    (hne : s.activeCameraEl ≠ some t) :
    activeCameraEntities (setActiveCamera s t) = [t] ∧
    (setActiveCamera s t).camera = some ⟨o, t⟩ := by
  have hc : getObject3DCamera s t = some ⟨o, t⟩ := getObject3DCamera_eq s t e o he ho
  have hne2 : ¬ some t = s.activeCameraEl := fun hh => hne hh.symm
  rw [setActiveCamera_of_valid s t ⟨o, t⟩ hc hne2]
  set s4 : SceneState :=
    { playEl { removeDefaultCamera s with activeCameraEl := some t } t with
        camera := some ⟨o, t⟩ } with hs4
  set s5 := disablePreviousCamera s.activeCameraEl s4 with hs5
  set s6 := disableOthers t (querySelectorAllCamera s) s5 with hs6
  have hndq : (querySelectorAllCamera s).Nodup := hnd.filter _
  have hs1sub := removeDefaultCamera_children_sublist s
  have hnd1 : (removeDefaultCamera s).children.Nodup := hnd.sublist hs1sub
  have hmdef : matchesDefault s t = false := by
    unfold matchesDefault
    rw [he]
    exact hdef
  have hmem1 : t ∈ (removeDefaultCamera s).children :=
    mem_children_removeDefaultCamera s t hmem hmdef
  have hchildren : (emitEvent (Event.cameraSetActive t) s6).children =
      (removeDefaultCamera s).children := by
    rw [emitEvent_children, hs6, disableOthers_children, hs5,
      disablePreviousCamera_children, hs4]
    rfl
  have hlookup6 : ∀ j, lookupEl (emitEvent (Event.cameraSetActive t) s6) j =
      lookupEl s6 j := fun j => rfl
  have hlookup_t : lookupEl s6 t = some { e with isPlaying := true } := by
    rw [hs6, lookupEl_disableOthers_target, hs5,
      lookupEl_disablePreviousCamera_ne _ _ _ hne, hs4]
    show lookupEl (playEl { removeDefaultCamera s with activeCameraEl := some t } t) t = _
    unfold playEl
    rw [lookupEl_updateEl, if_pos rfl]
    show (lookupEl (removeDefaultCamera s) t).map _ = _
    rw [lookupEl_removeDefaultCamera, he]
    rfl
  have hlookup_untouched : ∀ j, j ≠ t → j ∉ querySelectorAllCamera s →
      s.activeCameraEl ≠ some j → lookupEl s6 j = lookupEl s j := by
    intro j hjt hjq hjp
    rw [hs6, lookupEl_disableOthers_not_mem _ _ _ _ hjq, hs5,
      lookupEl_disablePreviousCamera_ne _ _ _ hjp, hs4]
    show lookupEl (playEl { removeDefaultCamera s with activeCameraEl := some t } t) j = _
    unfold playEl
    rw [lookupEl_updateEl, if_neg hjt]
    show lookupEl (removeDefaultCamera s) j = _
    exact lookupEl_removeDefaultCamera s j
  have hpoint : ∀ j ∈ (removeDefaultCamera s).children,
      ((lookupEl (emitEvent (Event.cameraSetActive t) s6) j).elim false
        (fun x => x.hasCameraAttr && x.cameraActive)) = true ↔ j = t := by
    intro j hj
    rw [hlookup6 j]
    constructor
    · intro hP
      by_contra hjt
      by_cases hjq : j ∈ querySelectorAllCamera s
      · rw [hs6, lookupEl_disableOthers_mem t _ s5 j hndq hjq hjt] at hP
        cases h5 : lookupEl s5 j with
        | none => rw [h5] at hP; simp at hP
        | some x => rw [h5] at hP; simp [disabledElement] at hP
      · by_cases hjp : s.activeCameraEl = some j
        · rw [hs6, lookupEl_disableOthers_not_mem _ _ _ _ hjq, hs5, hjp,
            lookupEl_disablePreviousCamera_self] at hP
          cases h4 : lookupEl s4 j with
          | none => rw [h4] at hP; simp at hP
          | some x => rw [h4] at hP; simp at hP
        · rw [hlookup_untouched j hjt hjq hjp] at hP
          have hjs : j ∈ s.children := hs1sub.subset hj
          have hmc : matchesCamera s j = true := by
            unfold matchesCamera
            cases hx : lookupEl s j with
            | none => rw [hx] at hP; simp at hP
            | some x =>
                rw [hx] at hP
                simp at hP ⊢
                exact hP.1
          exact hjq (List.mem_filter.mpr ⟨hjs, hmc⟩)
    · intro hjt
      subst hjt
      rw [hlookup_t]
      simp [hattr, hact]
  refine ⟨?_, ?_⟩
  · unfold activeCameraEntities
    rw [hchildren]
    exact filter_eq_singleton_of_forall _ t _ hnd1 hmem1 hpoint
  · rw [emitEvent_camera, hs6, disableOthers_camera, hs5,
      disablePreviousCamera_camera, hs4]

/-- Witness for C1 (amended) on the scene whose entity 2 carries an
already-true camera-active attribute. -/
theorem C1_witness :
    activeCameraEntities (setActiveCamera sceneTwoCamsBothActive 2) = [2] ∧
    (setActiveCamera sceneTwoCamsBothActive 2).camera = some ⟨20, 2⟩ :=
  C1_amended_single_activation sceneTwoCamsBothActive 2 elCamSecond 20
    (by decide) (by decide) rfl rfl rfl rfl rfl (by decide)

end AframeCamera
